import Mathlib

/-!
# Verification of the yr.no precipitation-actuals pipeline

Shallow embedding of the reconciliation / accumulation pipeline of the
repository (frontend hook `useWeatherData.ts`, the serverless handlers
under `api/`, the Express routes, and the in-memory TTL cache), together
with proofs and refutations of the frozen claims about it.

Modelling conventions:
* JavaScript numbers are modelled as exact rationals (`ℚ`).
* Timestamps (ISO strings in the code, compared both as strings for
  dedup and as parsed instants for sorting) are modelled as natural
  numbers; each instant has one canonical representation.
* `undefined` / `null` optional fields become `Option`.
* The ambient environment (`process.env`, `Date.now()`, the upstream
  providers reached over HTTP) is passed explicitly as parameters.
-/

namespace SnowPipeline

/-- `PrecipitationData` from `types/weather.ts`: the unified data point
produced by the reconciliation engine and mutated by the accumulation
estimator.  The field name `isForcast` keeps the source's spelling. -/
structure DataPoint where
  time : ℕ
  precipitation : ℚ
  snowDepth : Option ℚ
  temperature : Option ℚ
  windSpeed : Option ℚ
  windDirection : Option ℚ
  isForcast : Bool
deriving DecidableEq

/-! ## Accumulation Estimator

Embedding of the snow-depth loop of `useWeatherData.ts` (the
`fetchData` callback, lines 402-445): a single left-to-right pass
carrying `accumulated : number | undefined`. -/

/-- One iteration of the loop body: given the carried `accumulated`
value and the current point, return the new `accumulated` and the
(possibly mutated) point.  Mirrors the `if / else if` chain of the
source: a historical point with a defined snow depth resets the
baseline; a forecast point is estimated from the baseline (or left
undefined when there is none); any other point is untouched. -/
def estimateStep (accumulated : Option ℚ) (point : DataPoint) :
    Option ℚ × DataPoint :=
  if point.isForcast = false ∧ point.snowDepth ≠ none then
    -- accumulated = point.snowDepth; point.snowDepth = accumulated (kept verbatim)
    (point.snowDepth, point)
  else if point.isForcast = true then
    match accumulated with
    | none => (none, { point with snowDepth := none })
    | some currentSnow =>
      let temp : ℚ := point.temperature.getD 0
      let afterSnowfall : ℚ :=
        if temp ≤ 2 ∧ 0 < point.precipitation then
          currentSnow + point.precipitation
        else currentSnow
      let newAccumulated : ℚ :=
        if 0 < temp ∧ 0 < afterSnowfall then
          max 0 (afterSnowfall - min afterSnowfall (temp * (1 / 10)))
        else afterSnowfall
      (some newAccumulated, { point with snowDepth := some newAccumulated })
  else
    (accumulated, point)

/-- The full pass: `for (const point of combinedData) { ... }`. -/
def estimateSnowDepth (accumulated : Option ℚ) : List DataPoint → List DataPoint
  | [] => []
  | point :: rest =>
    let step := estimateStep accumulated point
    step.2 :: estimateSnowDepth step.1 rest

/-! ## Reconciliation Engine

Embedding of the merge in `fetchData` (lines 300-397): historical
observation records are converted first, then forecast points are
appended with range filtering and timestamp dedup, then the combined
list is sorted by time. -/

/-- One element reading inside a Frost observation record. -/
structure Observation where
  elementId : String
  value : ℚ
deriving DecidableEq

/-- A Frost `ObservationRecord`: one batch entry, a reference time with
its element readings. -/
structure ObsRecord where
  referenceTime : ℕ
  observations : List Observation
deriving DecidableEq

/-- One entry of the locationforecast time series, reduced to the
fields the merge reads. -/
structure ForecastTS where
  time : ℕ
  next1hPrecip : Option ℚ
  next6hPrecip : Option ℚ
  instantTemp : Option ℚ
  instantWindSpeed : Option ℚ
  instantWindDir : Option ℚ
deriving DecidableEq

/-- `o.elementId.includes('precipitation_amount')`: substring test,
expressed through `String.splitOn` (the pattern occurs iff the split
has more than one piece). -/
def matchesPrecipElement (elementId : String) : Bool :=
  1 < (elementId.splitOn "precipitation_amount").length

/-- Conversion of one historical record (lines 300-327): precipitation
by substring match defaulting to 0, the other elements by exact match
staying undefined when absent. -/
def obsToPoint (obs : ObsRecord) : DataPoint :=
  let precip := obs.observations.find? (fun o => matchesPrecipElement o.elementId)
  let snow := obs.observations.find? (fun o => o.elementId == "surface_snow_thickness")
  let temp := obs.observations.find? (fun o => o.elementId == "air_temperature")
  let wind := obs.observations.find? (fun o => o.elementId == "wind_speed")
  let windDir := obs.observations.find? (fun o => o.elementId == "wind_from_direction")
  { time := obs.referenceTime
    precipitation := (precip.map Observation.value).getD 0
    snowDepth := snow.map Observation.value
    temperature := temp.map Observation.value
    windSpeed := wind.map Observation.value
    windDirection := windDir.map Observation.value
    isForcast := false }

/-- Conversion of one forecast entry (lines 370-386): precipitation is
`next_1_hours ?? next_6_hours ?? 0`, instant fields pass through. -/
def forecastToPoint (ts : ForecastTS) : DataPoint :=
  { time := ts.time
    precipitation := ts.next1hPrecip.getD (ts.next6hPrecip.getD 0)
    snowDepth := none
    temperature := ts.instantTemp
    windSpeed := ts.instantWindSpeed
    windDirection := ts.instantWindDir
    isForcast := true }

/-- The forecast loop (lines 357-387): each entry is skipped when it
falls outside `[rangeStart, rangeEnd]` or when `combinedData` already
holds a point at the same time; otherwise it is pushed at the end. -/
def addForecasts (rangeStart rangeEnd : ℕ) (combined : List DataPoint) :
    List ForecastTS → List DataPoint
  | [] => combined
  | ts :: rest =>
    if ts.time < rangeStart ∨ rangeEnd < ts.time then
      addForecasts rangeStart rangeEnd combined rest
    else if combined.any (fun d => d.time == ts.time) then
      addForecasts rangeStart rangeEnd combined rest
    else
      addForecasts rangeStart rangeEnd (combined ++ [forecastToPoint ts]) rest

/-- The merge (lines 300-397): historical records first, then the
filtered and deduplicated forecasts, then an ascending sort by time
(`combinedData.sort((a, b) => ...)`). -/
def buildUnifiedSeries (hist : List ObsRecord) (fc : List ForecastTS)
    (rangeStart rangeEnd : ℕ) : List DataPoint :=
  List.insertionSort (fun a b => a.time ≤ b.time)
    (addForecasts rangeStart rangeEnd (hist.map obsToPoint) fc)

/-- The claim C3 invariant: no two points of a series share a timestamp. -/
def uniqueTimes (l : List DataPoint) : Prop :=
  (l.map DataPoint.time).Nodup

/-- The claim C5 invariant: no point carries a defined negative snow
depth (`getD 0` reads a defined value and maps undefined to 0). -/
def nonnegDepths (l : List DataPoint) : Prop :=
  ∀ p ∈ l, 0 ≤ p.snowDepth.getD 0

/-- Hypothesis of the amended C5: every historical point's observed
snow depth, when defined, is non-negative. -/
def nonnegObserved (l : List DataPoint) : Prop :=
  ∀ p ∈ l, p.isForcast = false → 0 ≤ p.snowDepth.getD 0

/-! ## HTTP handlers

Embedding of the serverless handlers `api/frost/stations.ts`,
`api/frost/observations.ts` and `api/forecast.ts` (the Express routes
in `backend/src/routes` implement the same contracts).  A handler is a
pure function of the relevant environment variable, the query
parameters (as optional strings, `isMissing` capturing JavaScript
falsiness of a string parameter) and the upstream provider (a function
from query to response).  Each handler also returns the list of
upstream queries it issued, in order. -/

/-- A station as returned by the Frost sources endpoint. -/
structure Station where
  id : String
  name : String
deriving DecidableEq

/-- An upstream HTTP response: status plus the parsed body used on the
2xx path. -/
structure ProviderResponse (α : Type) where
  status : ℕ
  body : α
deriving DecidableEq

/-- `response.ok` of `fetch`: status in the range 200-299. -/
def statusOk (status : ℕ) : Bool :=
  200 ≤ status && status < 300

/-- The JSON body a handler replies with: a `data` array or an
`{ error: ... }` object. -/
inductive Payload (α : Type) where
  | dataBody (data : α)
  | errorBody (msg : String)
deriving DecidableEq

/-- A handler reply: HTTP status plus payload. -/
structure Reply (α : Type) where
  status : ℕ
  payload : Payload α
deriving DecidableEq

/-- A string query parameter is falsy when absent or empty
(`if (!lat || !lon)` etc.). -/
def isMissing (v : Option String) : Bool :=
  match v with
  | none => true
  | some s => s == ""

/-- A query to the Frost sources endpoint: the geometry point and
whether the `elements` filter is attached. -/
structure StationsQuery where
  lat : String
  lon : String
  withElementsFilter : Bool
deriving DecidableEq

/-- Shared tail of the stations handler (`api/frost/stations.ts` lines
50-67): map the final upstream response to the reply. 401 becomes an
auth error, 404 becomes a successful empty `data` array, any other
non-2xx is passed through, and a 2xx body is passed through. -/
def stationsReply (r : ProviderResponse (List Station)) : Reply (List Station) :=
  if r.status = 401 then ⟨401, .errorBody "Invalid Frost API credentials."⟩
  else if r.status = 404 then ⟨200, .dataBody []⟩
  else if statusOk r.status = false then ⟨r.status, .errorBody "Failed to fetch stations"⟩
  else ⟨200, .dataBody r.body⟩

/-- `api/frost/stations.ts`: missing `FROST_CLIENT_ID` short-circuits
to 503 before anything else; missing coordinates give 400; otherwise
the element-filtered nearest query runs, and on a 404 the same
geometric query is retried once without the element filter. -/
def stationsHandler (clientId : Option String) (lat lon : Option String)
    (provider : StationsQuery → ProviderResponse (List Station)) :
    Reply (List Station) × List StationsQuery :=
  match clientId with
  | none => (⟨503, .errorBody "Frost API not configured. Historical data unavailable."⟩, [])
  | some _ =>
    if isMissing lat || isMissing lon then
      (⟨400, .errorBody "lat and lon query parameters are required"⟩, [])
    else
      match lat, lon with
      | some la, some lo =>
        let q1 : StationsQuery := ⟨la, lo, true⟩
        let r1 := provider q1
        if r1.status = 404 then
          let q2 : StationsQuery := ⟨la, lo, false⟩
          (stationsReply (provider q2), [q1, q2])
        else
          (stationsReply r1, [q1])
      | _, _ => (⟨400, .errorBody "lat and lon query parameters are required"⟩, [])

/-- A query to the Frost observations endpoint, after the default
`elements` value has been applied. -/
structure ObsQuery where
  sources : String
  elements : String
  referencetime : String
deriving DecidableEq

/-- The default `elements` parameter of the observations handler. -/
def defaultElements : String :=
  "sum(precipitation_amount PT1H),surface_snow_thickness"

/-- `elements || default`: the default applies when the parameter is
absent or empty. -/
def elementsOrDefault (elements : Option String) : String :=
  match elements with
  | none => defaultElements
  | some e => if e == "" then defaultElements else e

/-- `api/frost/observations.ts`: 503 without credentials, 400 when
`sources` or `referencetime` is missing, one upstream call otherwise,
with the same 401 / 404-to-empty / passthrough tail as the stations
handler. -/
def observationsHandler (clientId : Option String)
    (sources elements referencetime : Option String)
    (provider : ObsQuery → ProviderResponse (List ObsRecord)) :
    Reply (List ObsRecord) × List ObsQuery :=
  match clientId with
  | none => (⟨503, .errorBody "Frost API not configured. Historical data unavailable."⟩, [])
  | some _ =>
    if isMissing sources || isMissing referencetime then
      (⟨400, .errorBody "sources and referencetime query parameters are required"⟩, [])
    else
      match sources, referencetime with
      | some src, some rt =>
        let q : ObsQuery := ⟨src, elementsOrDefault elements, rt⟩
        let r := provider q
        (if r.status = 401 then ⟨401, .errorBody "Invalid Frost API credentials."⟩
         else if r.status = 404 then ⟨200, .dataBody []⟩
         else if statusOk r.status = false then
           ⟨r.status, .errorBody "Failed to fetch observations"⟩
         else ⟨200, .dataBody r.body⟩, [q])
      | _, _ => (⟨400, .errorBody "sources and referencetime query parameters are required"⟩, [])

/-- `api/forecast.ts`: the forecast handler never reads
`FROST_CLIENT_ID`; the environment value is still a parameter of the
embedding (the handler runs in the same process environment) and is
simply unused, exactly as in the source. -/
def forecastHandler (_clientId : Option String) (lat lon : Option String)
    (provider : String × String → ProviderResponse (List ForecastTS)) :
    Reply (List ForecastTS) × List (String × String) :=
  if isMissing lat || isMissing lon then
    (⟨400, .errorBody "lat and lon query parameters are required"⟩, [])
  else
    match lat, lon with
    | some la, some lo =>
      let r := provider (la, lo)
      (if statusOk r.status = false then ⟨r.status, .errorBody "Failed to fetch forecast"⟩
       else ⟨200, .dataBody r.body⟩, [(la, lo)])
    | _, _ => (⟨400, .errorBody "lat and lon query parameters are required"⟩, [])

/-! ## Response cache

Embedding of `SimpleCache` (backend `services/cache.ts`): a map from
string keys to entries carrying the stored value, the insertion
timestamp and a time-to-live in milliseconds.  `Date.now()` is passed
explicitly as `now` (milliseconds). -/

/-- One cache entry: `{ data, timestamp, ttl }`. -/
structure CacheEntry (α : Type) where
  data : α
  timestamp : ℕ
  ttl : ℕ

/-- The backing `Map<string, CacheEntry>`. -/
def CacheMap (α : Type) : Type :=
  String → Option (CacheEntry α)

/-- `SimpleCache.set`: store the value with `timestamp = Date.now()`
and `ttl = ttlSeconds * 1000`. -/
def CacheMap.set (c : CacheMap α) (key : String) (data : α)
    (ttlSeconds now : ℕ) : CacheMap α :=
  fun k => if k = key then some ⟨data, now, ttlSeconds * 1000⟩ else c k

/-- `SimpleCache.get`: absent keys give `null`; an entry whose age
`Date.now() - timestamp` exceeds its ttl is deleted and gives `null`;
otherwise the stored value is returned.  The result pairs the returned
value with the cache state after the call. -/
def CacheMap.get (c : CacheMap α) (key : String) (now : ℕ) :
    Option α × CacheMap α :=
  match c key with
  | none => (none, c)
  | some entry =>
    if entry.ttl < now - entry.timestamp then
      (none, fun k => if k = key then none else c k)
    else
      (some entry.data, c)

/-- Modelled from the spec's words (claim C1), for comparison with
`estimateStep`: start from the baseline `b`; if temperature ≤ 2 and
precipitation > 0, add the precipitation at a 1:1 ratio; then if
temperature > 0 and the running value is > 0, subtract
`min(running value, temperature * 0.1)`. -/
def specForecastRule (b t precip : ℚ) : ℚ :=
  let running := if t ≤ 2 ∧ 0 < precip then b + precip else b
  if 0 < t ∧ 0 < running then running - min running (t * (1 / 10)) else running

/-! ## Helper lemmas about the estimator -/

theorem estimateStep_snd_isForcast (acc : Option ℚ) (q : DataPoint) :
    ((estimateStep acc q).2).isForcast = q.isForcast := by
  rcases q with ⟨tm, pr, sd, tp, ws, wd, fc⟩
  rcases fc <;> rcases sd <;> rcases acc <;> simp [estimateStep]

theorem estimateStep_fst_isSome (acc : Option ℚ) (q : DataPoint) :
    ((estimateStep acc q).1).isSome
      = (acc.isSome || (!q.isForcast && q.snowDepth.isSome)) := by
  rcases q with ⟨tm, pr, sd, tp, ws, wd, fc⟩
  rcases fc <;> rcases sd <;> rcases acc <;> simp [estimateStep]

theorem estimateStep_snd_snowDepth_forecast (acc : Option ℚ) (q : DataPoint)
    (h : q.isForcast = true) :
    ((estimateStep acc q).2).snowDepth.isSome = acc.isSome := by
  rcases q with ⟨tm, pr, sd, tp, ws, wd, fc⟩
  cases h
  rcases acc <;> simp [estimateStep]

theorem estimateSnowDepth_getElem?_isSome :
    ∀ (l : List DataPoint) (acc : Option ℚ) (i : ℕ) (p : DataPoint),
      (estimateSnowDepth acc l)[i]? = some p → p.isForcast = true →
      p.snowDepth.isSome
        = (acc.isSome || ((l.take i).any fun q => !q.isForcast && q.snowDepth.isSome)) := by
  intro l
  induction l with
  | nil =>
    intro acc i p h
    simp [estimateSnowDepth] at h
  | cons q rest ih =>
    intro acc i p h hf
    cases i with
    | zero =>
      simp only [estimateSnowDepth, List.getElem?_cons_zero, Option.some.injEq] at h
      subst h
      simp [estimateStep_snd_snowDepth_forecast acc q
        (by rw [← estimateStep_snd_isForcast acc q]; exact hf)]
    | succ n =>
      simp only [estimateSnowDepth, List.getElem?_cons_succ] at h
      have hrec := ih (estimateStep acc q).1 n p h hf
      rw [hrec, estimateStep_fst_isSome]
      simp [Bool.or_assoc]

/-- C1: after a baseline exists, a forecast point's new running value
follows the documented rule (precipitation added below 2°C, melt term
`min(running, temp * 0.1)` above 0°C) and is stored as both the new
baseline and the point's snow depth; on the spec's concrete scenario
the estimator assigns 13 and then 12.5. -/
theorem estimateStep_forecast_rule :
    (∀ (b t precip : ℚ) (sd ws wd : Option ℚ) (tm : ℕ),
      estimateStep (some b) ⟨tm, precip, sd, some t, ws, wd, true⟩
        = (some (specForecastRule b t precip),
           ⟨tm, precip, some (specForecastRule b t precip), some t, ws, wd, true⟩))
    ∧ (estimateSnowDepth none
        [⟨0, 5, some 10, none, none, none, false⟩,
         ⟨1, 3, none, some (-2), none, none, true⟩,
         ⟨2, 0, none, some 5, none, none, true⟩]).map DataPoint.snowDepth
        = [some 10, some 13, some (25 / 2)] := by
  constructor
  · intro b t precip sd ws wd tm
    have hmax : ∀ x m : ℚ, max 0 (x - min x m) = x - min x m := fun x m =>
      max_eq_right (by simp [sub_nonneg, min_le_left])
    simp [estimateStep, specForecastRule, hmax]
  · simp +decide [estimateSnowDepth, estimateStep, min_def]
    norm_num

/-- C2: after the pass starting with no baseline, a forecast point of
the output has a defined snow depth exactly when some historical point
with a defined snow-depth value precedes it in the input series (so
leading forecast points stay undefined, later ones are all defined,
and a forecast-only series is all undefined). -/
theorem estimator_defined_iff_baseline :
    ∀ (l : List DataPoint) (i : ℕ) (p : DataPoint),
      (estimateSnowDepth none l)[i]? = some p → p.isForcast = true →
      p.snowDepth.isSome
        = ((l.take i).any fun q => !q.isForcast && q.snowDepth.isSome) := by
  intro l i p h hf
  have hrec := estimateSnowDepth_getElem?_isSome l none i p h hf
  simpa using hrec

/-- Witness for C2: on a two-point series with a historical
observation of 10 followed by a forecast point, the forecast point at
index 1 has a defined snow depth and the prefix test is true. -/
theorem estimator_defined_iff_baseline_witness :
    (DataPoint.snowDepth ⟨1, 0, some 10, none, none, none, true⟩).isSome
      = (([(⟨0, 0, some 10, none, none, none, false⟩ : DataPoint),
           ⟨1, 0, none, none, none, none, true⟩].take 1).any
          fun q => !q.isForcast && q.snowDepth.isSome) :=
  estimator_defined_iff_baseline
    [⟨0, 0, some 10, none, none, none, false⟩, ⟨1, 0, none, none, none, none, true⟩]
    1 ⟨1, 0, some 10, none, none, none, true⟩ (by decide) rfl

/-- C6: a historical point with no observed snow-depth value is a
no-op for the estimator: the carried baseline is unchanged and the
point keeps its undefined snow depth, whether or not a baseline
exists. -/
theorem estimateStep_historical_gap :
    ∀ (acc : Option ℚ) (tm : ℕ) (precip : ℚ) (temp ws wd : Option ℚ),
      estimateStep acc ⟨tm, precip, none, temp, ws, wd, false⟩
        = (acc, ⟨tm, precip, none, temp, ws, wd, false⟩) := by
  intro acc tm precip temp ws wd
  simp [estimateStep]

/-- C10: a forecast point with an undefined temperature is treated as
0°C once a baseline exists: precipitation (when positive) is added,
no melt is subtracted, and the stored value never drops below the
baseline. -/
theorem estimateStep_missing_temperature :
    ∀ (b precip : ℚ) (sd ws wd : Option ℚ) (tm : ℕ),
      estimateStep (some b) ⟨tm, precip, sd, none, ws, wd, true⟩
        = (some (if 0 < precip then b + precip else b),
           ⟨tm, precip, some (if 0 < precip then b + precip else b), none, ws, wd, true⟩)
      ∧ b ≤ (if 0 < precip then b + precip else b) := by
  intro b precip sd ws wd tm
  constructor
  · simp +decide [estimateStep]
  · split_ifs with h
    · linarith
    · exact le_refl b

/-! ## Helper lemmas about the merge -/

theorem obsToPoint_time (r : ObsRecord) : (obsToPoint r).time = r.referenceTime := rfl

theorem obsToPoint_isForcast (r : ObsRecord) : (obsToPoint r).isForcast = false := rfl

theorem forecastToPoint_time (ts : ForecastTS) : (forecastToPoint ts).time = ts.time := rfl

theorem addForecasts_times_nodup :
    ∀ (fc : List ForecastTS) (combined : List DataPoint) (s e : ℕ),
      (combined.map DataPoint.time).Nodup →
      ((addForecasts s e combined fc).map DataPoint.time).Nodup := by
  intro fc
  induction fc with
  | nil =>
    intro combined s e h
    simpa [addForecasts] using h
  | cons ts rest ih =>
    intro combined s e h
    simp only [addForecasts]
    split_ifs with h1 h2
    · exact ih combined s e h
    · exact ih combined s e h
    · refine ih (combined ++ [forecastToPoint ts]) s e ?_
      rw [List.map_append]
      refine List.nodup_append.mpr ⟨h, List.nodup_singleton _, ?_⟩
      intro a ha hb
      simp only [List.map_cons, List.map_nil, List.mem_singleton, forecastToPoint_time] at hb
      subst hb
      rcases List.mem_map.mp ha with ⟨d, hd, hdt⟩
      simp only [List.any_eq_true, beq_iff_eq] at h2
      exact h2 ⟨d, hd, hdt⟩

theorem addForecasts_mem_mono :
    ∀ (fc : List ForecastTS) (combined : List DataPoint) (s e : ℕ) (d : DataPoint),
      d ∈ combined → d ∈ addForecasts s e combined fc := by
  intro fc
  induction fc with
  | nil =>
    intro combined s e d h
    simpa [addForecasts] using h
  | cons ts rest ih =>
    intro combined s e d h
    simp only [addForecasts]
    split_ifs with h1 h2
    · exact ih combined s e d h
    · exact ih combined s e d h
    · exact ih (combined ++ [forecastToPoint ts]) s e d (List.mem_append_left _ h)

theorem addForecasts_mem_cases :
    ∀ (fc : List ForecastTS) (combined : List DataPoint) (s e : ℕ) (p : DataPoint),
      p ∈ addForecasts s e combined fc →
      p ∈ combined ∨ (p.isForcast = true ∧ ∀ d ∈ combined, d.time ≠ p.time) := by
  intro fc
  induction fc with
  | nil =>
    intro combined s e p h
    exact Or.inl (by simpa [addForecasts] using h)
  | cons ts rest ih =>
    intro combined s e p h
    simp only [addForecasts] at h
    split_ifs at h with h1 h2
    · exact ih combined s e p h
    · exact ih combined s e p h
    · rcases ih (combined ++ [forecastToPoint ts]) s e p h with hm | ⟨hf, hd⟩
      · rcases List.mem_append.mp hm with hc | hnew
        · exact Or.inl hc
        · have hp : p = forecastToPoint ts := by simpa using hnew
          subst hp
          refine Or.inr ⟨rfl, ?_⟩
          intro d hd' hEq
          simp only [List.any_eq_true, beq_iff_eq] at h2
          exact h2 ⟨d, hd', by simpa [forecastToPoint_time] using hEq⟩
      · exact Or.inr ⟨hf, fun d hd' => hd d (List.mem_append_left _ hd')⟩

/-- Counterexample to C3: a provider response containing two
historical records at the same reference time (which the provider does
not rule out) yields a merged series with a duplicated timestamp. -/
theorem merge_unique_times_counterexample :
    ¬ uniqueTimes (buildUnifiedSeries [⟨0, []⟩, ⟨0, []⟩] [] 0 5) := by
  unfold uniqueTimes
  decide

/-- C3 amended: whenever the historical records carry pairwise
distinct reference times, no two points of the merged series share a
timestamp, for every forecast input (forecast entries are deduplicated
against everything already merged, including each other). -/
theorem merge_unique_times_of_nodup_hist :
    ∀ (hist : List ObsRecord) (fc : List ForecastTS) (s e : ℕ),
      (hist.map ObsRecord.referenceTime).Nodup →
      uniqueTimes (buildUnifiedSeries hist fc s e) := by
  intro hist fc s e h
  unfold uniqueTimes buildUnifiedSeries
  have h0 : ((hist.map obsToPoint).map DataPoint.time).Nodup := by
    rw [List.map_map]
    simpa [Function.comp_def, obsToPoint_time] using h
  have h1 := addForecasts_times_nodup fc (hist.map obsToPoint) s e h0
  exact (((List.perm_insertionSort _ _).map DataPoint.time).symm).nodup h1

/-- Witness for the amended C3: two historical records at distinct
times merged with a forecast entry colliding with one of them. -/
theorem merge_unique_times_of_nodup_hist_witness :
    uniqueTimes (buildUnifiedSeries [⟨0, []⟩, ⟨1, []⟩]
      [⟨1, some 2, none, none, none, none⟩, ⟨3, none, none, none, none, none⟩] 0 5) :=
  merge_unique_times_of_nodup_hist [⟨0, []⟩, ⟨1, []⟩]
    [⟨1, some 2, none, none, none, none⟩, ⟨3, none, none, none, none, none⟩] 0 5 (by decide)

/-- C4: every historical record appears in the merged series, and no
forecast point of the merged series carries a historical record's
timestamp — on an overlap only the historical point survives. -/
theorem merge_historical_precedence :
    ∀ (hist : List ObsRecord) (fc : List ForecastTS) (s e : ℕ) (r : ObsRecord),
      r ∈ hist →
      obsToPoint r ∈ buildUnifiedSeries hist fc s e
      ∧ ∀ p ∈ buildUnifiedSeries hist fc s e,
          p.isForcast = true → p.time ≠ r.referenceTime := by
  intro hist fc s e r hr
  constructor
  · unfold buildUnifiedSeries
    rw [(List.perm_insertionSort _ _).mem_iff]
    exact addForecasts_mem_mono fc _ s e _ (List.mem_map_of_mem _ hr)
  · intro p hp hf
    unfold buildUnifiedSeries at hp
    rw [(List.perm_insertionSort _ _).mem_iff] at hp
    rcases addForecasts_mem_cases fc _ s e p hp with hm | ⟨_, hd⟩
    · rcases List.mem_map.mp hm with ⟨r', _, rfl⟩
      rw [obsToPoint_isForcast] at hf
      exact absurd hf (by decide)
    · intro hEq
      have hne := hd (obsToPoint r) (List.mem_map_of_mem _ hr)
      exact hne (by rw [obsToPoint_time, ← hEq])

/-- Witness for C4: a historical record at time 0 merged with a
forecast entry at the same time; the historical point is in the
output. -/
theorem merge_historical_precedence_witness :
    obsToPoint ⟨0, []⟩ ∈ buildUnifiedSeries [⟨0, []⟩]
      [⟨0, some 1, none, none, none, none⟩] 0 5 :=
  (merge_historical_precedence [⟨0, []⟩] [⟨0, some 1, none, none, none, none⟩] 0 5
    ⟨0, []⟩ (by decide)).1

/-! ## Non-negativity of the estimator -/

theorem estimateStep_nonneg (acc : Option ℚ) (q : DataPoint)
    (hacc : ∀ b, acc = some b → 0 ≤ b)
    (hq : q.isForcast = false → 0 ≤ q.snowDepth.getD 0) :
    (∀ b, (estimateStep acc q).1 = some b → 0 ≤ b)
    ∧ 0 ≤ ((estimateStep acc q).2).snowDepth.getD 0 := by
  rcases q with ⟨tm, pr, sd, tp, ws, wd, fc⟩
  rcases fc with _ | _
  · -- historical point
    rcases sd with _ | v
    · simpa [estimateStep] using hacc
    · have hv : 0 ≤ v := by simpa using hq rfl
      constructor
      · intro b hb
        simp only [estimateStep] at hb
        simp only [Bool.false_eq_true, ne_eq, reduceCtorEq, not_false_iff, and_true,
          if_true, Option.some.injEq] at hb
        simp_all
      · simp [estimateStep, hv]
  · -- forecast point
    rcases acc with _ | b
    · simp [estimateStep]
    · have hb : 0 ≤ b := hacc b rfl
      have hnew : 0 ≤
          (if 0 < (Option.getD tp 0) ∧
              0 < (if (Option.getD tp 0) ≤ 2 ∧ 0 < pr
                then b + pr else b) then
            max 0 ((if (Option.getD tp 0) ≤ 2 ∧ 0 < pr then b + pr else b) -
              min (if (Option.getD tp 0) ≤ 2 ∧ 0 < pr then b + pr else b)
                ((Option.getD tp 0) * (1 / 10)))
          else (if (Option.getD tp 0) ≤ 2 ∧ 0 < pr then b + pr else b)) := by
        split_ifs with h1 h2 h3
        · exact le_max_left 0 _
        · linarith [h1.2]
        · exact le_max_left 0 _
        · exact hb
      constructor
      · intro c hc
        simp only [estimateStep] at hc
        simp only [Bool.true_eq_false, false_and, if_false, if_true,
          Option.some.injEq, reduceIte] at hc
        simp_all
      · simp only [estimateStep]
        simpa using hnew

theorem estimateSnowDepth_nonneg :
    ∀ (l : List DataPoint) (acc : Option ℚ),
      (∀ b, acc = some b → 0 ≤ b) → nonnegObserved l →
      nonnegDepths (estimateSnowDepth acc l) := by
  intro l
  induction l with
  | nil =>
    intro acc _ _ p hp
    simp [estimateSnowDepth] at hp
  | cons q rest ih =>
    intro acc hacc hl p hp
    have hq : q.isForcast = false → 0 ≤ q.snowDepth.getD 0 :=
      hl q (List.mem_cons_self q rest)
    have hstep := estimateStep_nonneg acc q hacc hq
    simp only [estimateSnowDepth] at hp
    rcases List.mem_cons.mp hp with rfl | hp'
    · exact hstep.2
    · exact ih (estimateStep acc q).1 hstep.1
        (fun d hd => hl d (List.mem_cons_of_mem q hd)) p hp'

/-- Counterexample to C5: a historical record can carry a negative
observed snow depth (the code stores it verbatim as the baseline), and
a subsequent forecast point at 0°C with no precipitation is then
written a negative snow depth by the estimator. -/
theorem estimator_nonneg_counterexample :
    ¬ nonnegDepths (estimateSnowDepth none
      [⟨0, 0, some (-1), none, none, none, false⟩,
       ⟨1, 0, none, some 0, none, none, true⟩]) := by
  unfold nonnegDepths
  decide

/-- C5 amended: provided every historical point's observed snow depth
is non-negative, no point of the output carries a defined negative
snow depth. -/
theorem estimator_nonneg_of_nonneg_observed :
    ∀ l, nonnegObserved l → nonnegDepths (estimateSnowDepth none l) := by
  intro l h
  exact estimateSnowDepth_nonneg l none (by simp) h

/-- Witness for the amended C5: an observed depth of 1 followed by a
melting forecast point. -/
theorem estimator_nonneg_of_nonneg_observed_witness :
    nonnegDepths (estimateSnowDepth none
      [⟨0, 0, some 1, none, none, none, false⟩,
       ⟨1, 0, none, some 5, none, none, true⟩]) :=
  estimator_nonneg_of_nonneg_observed
    [⟨0, 0, some 1, none, none, none, false⟩, ⟨1, 0, none, some 5, none, none, true⟩]
    (by unfold nonnegObserved; decide)

/-! ## Handler and cache claims -/

/-- C7: when the element-filtered nearest-station query returns 404,
the handler issues exactly one retry, with the same coordinates and no
element filter; if the retry also returns 404 the reply is a 200 with
an empty `data` array, not an error. -/
theorem stations_404_retry :
    ∀ (cid la lo : String) (provider : StationsQuery → ProviderResponse (List Station)),
      la ≠ "" → lo ≠ "" →
      (provider ⟨la, lo, true⟩).status = 404 →
      (stationsHandler (some cid) (some la) (some lo) provider).2
          = [⟨la, lo, true⟩, ⟨la, lo, false⟩]
      ∧ ((provider ⟨la, lo, false⟩).status = 404 →
          (stationsHandler (some cid) (some la) (some lo) provider).1
            = ⟨200, Payload.dataBody []⟩) := by
  intro cid la lo provider hla hlo h404
  have hla' : (la == "") = false := beq_eq_false_iff_ne.mpr hla
  have hlo' : (lo == "") = false := beq_eq_false_iff_ne.mpr hlo
  constructor
  · simp [stationsHandler, isMissing, hla', hlo', h404]
  · intro h404b
    simp [stationsHandler, stationsReply, isMissing, hla', hlo', h404, h404b]

/-- Witness for C7: a provider that answers 404 to every query. -/
theorem stations_404_retry_witness :
    (stationsHandler (some "id") (some "60") (some "10")
        (fun _ => ⟨404, []⟩)).2
      = [⟨"60", "10", true⟩, ⟨"60", "10", false⟩]
    ∧ (stationsHandler (some "id") (some "60") (some "10")
        (fun _ => ⟨404, []⟩)).1 = ⟨200, Payload.dataBody []⟩ := by
  have h := stations_404_retry "id" "60" "10" (fun _ => ⟨404, []⟩)
    (by decide) (by decide) rfl
  exact ⟨h.1, h.2 rfl⟩

/-- C8: with the credential environment variable absent, the stations
and observations handlers reply 503 with the explanatory payload and
issue no upstream query, for any parameters and any provider, while
the forecast handler's behaviour does not depend on that variable at
all. -/
theorem missing_credential_503 :
    ∀ (lat lon sources elements rt : Option String)
      (sProv : StationsQuery → ProviderResponse (List Station))
      (oProv : ObsQuery → ProviderResponse (List ObsRecord))
      (fProv : String × String → ProviderResponse (List ForecastTS))
      (cid : Option String),
      stationsHandler none lat lon sProv
          = (⟨503, Payload.errorBody
              "Frost API not configured. Historical data unavailable."⟩, [])
      ∧ observationsHandler none sources elements rt oProv
          = (⟨503, Payload.errorBody
              "Frost API not configured. Historical data unavailable."⟩, [])
      ∧ forecastHandler cid lat lon fProv = forecastHandler none lat lon fProv := by
  intro lat lon sources elements rt sProv oProv fProv cid
  exact ⟨rfl, rfl, rfl⟩

/-- C9: a get on an entry set `ttlSeconds` ago whose age exceeds its
time-to-live returns no value and removes the entry (lazy eviction), a
get within the time-to-live returns the value that was set, and a get
on an absent key returns no value and leaves the store unchanged. -/
theorem cache_ttl_semantics :
    ∀ (α : Type) (c : CacheMap α) (key : String) (data : α) (ttlSeconds t0 t1 : ℕ),
      (ttlSeconds * 1000 < t1 - t0 →
        ((c.set key data ttlSeconds t0).get key t1).1 = none
        ∧ ((c.set key data ttlSeconds t0).get key t1).2 key = none)
      ∧ (t1 - t0 ≤ ttlSeconds * 1000 →
        ((c.set key data ttlSeconds t0).get key t1).1 = some data)
      ∧ (c key = none → c.get key t1 = (none, c)) := by
  intro α c key data ttlSeconds t0 t1
  refine ⟨fun h => ?_, fun h => ?_, fun h => ?_⟩
  · constructor <;> simp [CacheMap.get, CacheMap.set, h]
  · simp [CacheMap.get, CacheMap.set, not_lt.mpr h]
  · simp [CacheMap.get, h]

/-- Witness for C9: a one-second entry read after two seconds and
after half a second. -/
theorem cache_ttl_semantics_witness :
    ((CacheMap.set (fun _ => none) "k" (7 : ℕ) 1 0).get "k" 2000).1 = none
    ∧ ((CacheMap.set (fun _ => none) "k" (7 : ℕ) 1 0).get "k" 500).1 = some 7 :=
  ⟨((cache_ttl_semantics ℕ (fun _ => none) "k" 7 1 0 2000).1 (by decide)).1,
   (cache_ttl_semantics ℕ (fun _ => none) "k" 7 1 0 500).2.1 (by decide)⟩

end SnowPipeline
